import Mathlib

/-!
# Verification of the bluest adapter event-bridge and scan/connect layer

Shallow embedding of the adapter layer of the `bluest` crate
(`src/corebluetooth/adapter.rs`, `src/windows/adapter.rs`,
`src/corebluetooth/advertisement.rs`, `src/windows/advertisement.rs`).

Native handles (peripherals, UUIDs, error objects) are modelled by their
identity content: device identities and UUIDs become `Nat`, native error
objects become opaque `Nat` codes.  Event streams become explicit lists of
items, each paired with the `CBCentralManager` state observed when the item
is processed (the code samples `self.central.state()` per iteration).
-/

namespace Bluest

/-- Backend-opaque 128-bit service UUID, modelled by its value. -/
abbrev Uuid := Nat

/-- Backend-opaque peripheral/device identity (`ShareId<CBPeripheral>`
compared by native identity in the source). -/
abbrev DeviceId := Nat

/-- Opaque native `NSError` object, modelled by an error code. -/
abbrev NSErrorCode := Nat

/-- `ManufacturerData { company_id: u16, data: Vec<u8> }`. -/
structure ManufacturerData where
  companyId : Nat
  data : List Nat
deriving DecidableEq

/-- Modelled from the spec: the crate-level `AdvertisementData` struct
(its defining module is not under `src/`; the field list follows the
spec's data model: local name, manufacturer data, service UUIDs,
solicited services, service data, TX power, connectable flag). -/
structure AdvertisementData where
  localName : Option String
  manufacturerData : Option ManufacturerData
  services : List Uuid
  solicitedServices : List Uuid
  serviceData : List (Uuid × List Nat)
  txPowerLevel : Option Int
  isConnectable : Bool
deriving DecidableEq

/-- `CBManagerState` (CoreBluetooth central manager power state). -/
inductive CBManagerState
  | unknown
  | resetting
  | unsupported
  | unauthorized
  | poweredOff
  | poweredOn
deriving DecidableEq

/-- `delegates::CentralEvent`: the internal event union produced by the
native callback and consumed through the broadcast bridge. -/
inductive CentralEvent
  | stateChanged
  | discovered (peripheral : DeviceId) (advData : AdvertisementData) (rssi : Int)
  | connect (peripheral : DeviceId)
  | connectFailed (peripheral : DeviceId) (error : Option NSErrorCode)
  | disconnect (peripheral : DeviceId) (error : Option NSErrorCode)
deriving DecidableEq

/-- One item yielded by `BroadcastStream<CentralEvent>`: either a bridged
event or a `Lagged(n)` receive error for a slow subscriber. -/
inductive BridgeItem
  | event (e : CentralEvent)
  | lagged (n : Nat)
deriving DecidableEq

/-- `ErrorKind` variants of the crate's error type used by the adapter. -/
inductive ErrorKind
  | adapterUnavailable
  | alreadyScanning
  | connectionFailed
  | internal
  | notFound
deriving DecidableEq

/-- The crate's `Error`: either a plain `ErrorKind` (via `ErrorKind::into`)
or a wrapped native error (via `Error::from_nserror`). -/
inductive BError
  | kind (k : ErrorKind)
  | fromNSError (code : NSErrorCode)
deriving DecidableEq

deriving instance DecidableEq for Except

/-- Result of processing one bridged item inside `connect_device` /
`disconnect_device`'s `while let` loop: either the loop resolves the call
(breaks with `Ok` or returns an error) or it keeps waiting. -/
inductive StepResult
  | resolved (r : Except BError Unit)
  | waiting
deriving DecidableEq

/-- One iteration of `Adapter::connect_device`'s event loop
(`src/corebluetooth/adapter.rs:195-208`): re-check the central state, then
match the item; `Connect` with the target identity breaks with success,
`ConnectFailed` with the target identity returns the wrapped native error
or a generic `ConnectionFailed`, everything else (including lag errors and
events for other peripherals) is discarded. -/
def connectStep (d : DeviceId) (state : CBManagerState) (it : BridgeItem) : StepResult :=
  if state ≠ CBManagerState.poweredOn then
    .resolved (.error (.kind .adapterUnavailable))
  else
    match it with
    | .event (.connect p) =>
        if p = d then .resolved (.ok ()) else .waiting
    | .event (.connectFailed p err) =>
        if p = d then
          .resolved (.error (match err with
            | some code => .fromNSError code
            | none => .kind .connectionFailed))
        else .waiting
    | _ => .waiting

/-- One iteration of `Adapter::disconnect_device`'s event loop
(`src/corebluetooth/adapter.rs:222-233`): re-check the central state, then
match the item; a `Disconnect` event with the target identity always takes
the `return Err(...)` arm (the source has no success arm for a matching
event), everything else is discarded. -/
def disconnectStep (d : DeviceId) (state : CBManagerState) (it : BridgeItem) : StepResult :=
  if state ≠ CBManagerState.poweredOn then
    .resolved (.error (.kind .adapterUnavailable))
  else
    match it with
    | .event (.disconnect p err) =>
        if p = d then
          .resolved (.error (match err with
            | some code => .fromNSError code
            | none => .kind .connectionFailed))
        else .waiting
    | _ => .waiting

/-- Run an event loop over the bridged items received so far; each item is
paired with the central state observed while processing it.  `waiting`
means the stream has not resolved the call yet. -/
def loopProgress (step : CBManagerState → BridgeItem → StepResult) :
    List (CBManagerState × BridgeItem) → StepResult
  | [] => .waiting
  | (s, it) :: rest =>
      match step s it with
      | .resolved r => .resolved r
      | .waiting => loopProgress step rest

/-- Progress of a `connect_device(d)` call over the received items. -/
def connectProgress (d : DeviceId) (evs : List (CBManagerState × BridgeItem)) : StepResult :=
  loopProgress (connectStep d) evs

/-- Progress of a `disconnect_device(d)` call over the received items. -/
def disconnectProgress (d : DeviceId) (evs : List (CBManagerState × BridgeItem)) : StepResult :=
  loopProgress (disconnectStep d) evs

/-- The value `connect_device(d)` returns when the bridged stream ends
(`events.next()` yields `None`) after delivering `evs`: the `while let`
loop exits and the function falls through to `Ok(())`
(`src/corebluetooth/adapter.rs:210`). -/
def connectCall (d : DeviceId) (evs : List (CBManagerState × BridgeItem)) : Except BError Unit :=
  match connectProgress d evs with
  | .resolved r => r
  | .waiting => .ok ()

/-- The value `disconnect_device(d)` returns when the bridged stream ends
after delivering `evs`; the loop exit falls through to `Ok(())`
(`src/corebluetooth/adapter.rs:236`). -/
def disconnectCall (d : DeviceId) (evs : List (CBManagerState × BridgeItem)) : Except BError Unit :=
  match disconnectProgress d evs with
  | .resolved r => r
  | .waiting => .ok ()

/-- `Adapter::connect_device` including the initial power-state
precondition check (`src/corebluetooth/adapter.rs:188-190`). -/
def connectDevice (initState : CBManagerState) (d : DeviceId)
    (evs : List (CBManagerState × BridgeItem)) : Except BError Unit :=
  if initState ≠ CBManagerState.poweredOn then .error (.kind .adapterUnavailable)
  else connectCall d evs

/-- `Adapter::disconnect_device` including the initial power-state
precondition check (`src/corebluetooth/adapter.rs:215-217`). -/
def disconnectDevice (initState : CBManagerState) (d : DeviceId)
    (evs : List (CBManagerState × BridgeItem)) : Except BError Unit :=
  if initState ≠ CBManagerState.poweredOn then .error (.kind .adapterUnavailable)
  else disconnectCall d evs

/-- A scan stream element: `AdvertisingDevice { device, adv_data, rssi }`.
The device handle is represented by the identity it was built from (the
peripheral identity on CoreBluetooth, the bluetooth address on Windows). -/
structure AdvertisingDevice where
  device : DeviceId
  advData : AdvertisementData
  rssi : Option Int
deriving DecidableEq

/-- The `filter_map` body of the CoreBluetooth scan stream
(`src/corebluetooth/adapter.rs:165-179`): a `Discovered` bridged event
becomes an `AdvertisingDevice` (with `rssi` wrapped in `Some`); every
other item is dropped.  No service filtering happens at this layer. -/
def cbScanYield (it : BridgeItem) : Option AdvertisingDevice :=
  match it with
  | .event (.discovered p adv rssi) => some ⟨p, adv, some rssi⟩
  | _ => none

/-- The elements produced by the CoreBluetooth scan stream over the
bridged items received so far: `take_while` the central state observed at
each item is `PoweredOn` (`src/corebluetooth/adapter.rs:164`), then
`filter_map` the `Discovered` events. -/
def cbScanOutput (pairs : List (CBManagerState × BridgeItem)) : List AdvertisingDevice :=
  (pairs.takeWhile (fun p => p.1 == CBManagerState.poweredOn)).filterMap
    (fun p => cbScanYield p.2)

/-- Native commands the CoreBluetooth adapter issues to the central. -/
inductive CBCommand
  | scanForPeripherals (filter : Option (List Uuid))
  | stopScan
deriving DecidableEq

/-- Observable outcome of the synchronous phase of a CoreBluetooth
`Adapter::scan` call: the native commands issued, the scanning flag after
the call returns, and the result. -/
structure CBScanTrace where
  commands : List CBCommand
  scanningAfter : Bool
  result : Except BError Unit
deriving DecidableEq

/-- The synchronous phase of CoreBluetooth `Adapter::scan`
(`src/corebluetooth/adapter.rs:144-183`): fail with `AdapterUnavailable`
unless the central is powered on; atomically `swap` the shared scanning
flag to `true` and fail with `AlreadyScanning` if it was already set (the
flag stays `true`: it was set by the holder of the active scan); only then
issue `scan_for_peripherals_with_services`, with `None` for an empty
service filter. -/
def cbScanCall (state : CBManagerState) (scanning : Bool) (services : List Uuid) : CBScanTrace :=
  if state ≠ CBManagerState.poweredOn then
    ⟨[], scanning, .error (.kind .adapterUnavailable)⟩
  else if scanning then
    ⟨[], true, .error (.kind .alreadyScanning)⟩
  else
    ⟨[CBCommand.scanForPeripherals (if services.isEmpty then none else some services)],
      true, .ok ()⟩

/-- `RadioState` of the Windows radio. -/
inductive RadioState
  | unknown
  | on
  | off
  | disabled
deriving DecidableEq

/-- Native commands the Windows adapter issues to its advertisement
watcher. -/
inductive WinCommand
  | watcherStart
  | watcherStop
deriving DecidableEq

/-- The synchronous phase of Windows `Adapter::scan`
(`src/windows/adapter.rs:244-281`): a fresh
`BluetoothLEAdvertisementWatcher` is created and started unconditionally —
the function never reads the radio state and the Windows `Adapter` holds
no scanning flag, so the `state` argument is ignored.  Native constructor
failures (the `?` operators) would surface as wrapped native errors, not
as `AdapterUnavailable` or `AlreadyScanning`; they are modelled as the
collaborator succeeding. -/
def winScanCall (_state : RadioState) : List WinCommand × Except BError Unit :=
  ([WinCommand.watcherStart], .ok ())

/-- One event delivered to the Windows scan receiver
(`src/windows/adapter.rs:282-320`): either the event args parsed
successfully into `(address, rssi, advertisement)` — with `deviceOk`
recording whether the subsequent `Device::from_addr` succeeds — or one of
the native field accessors failed (`parseErr`), which the pipeline logs
and drops. -/
inductive WinRecvEvent
  | ok (addr : DeviceId) (rssi : Option Int) (adv : AdvertisementData) (deviceOk : Bool)
  | parseErr
deriving DecidableEq

/-- The service filter applied by the Windows scan pipeline
(`src/windows/adapter.rs:295-296`): keep the advertisement when the
requested filter is empty or some requested UUID appears in the decoded
services. -/
def winAdvFilter (services : List Uuid) (adv : AdvertisementData) : Bool :=
  services.isEmpty || services.any (fun x => adv.services.contains x)

/-- The elements produced by the Windows scan stream from the received
events (`src/windows/adapter.rs:282-320`): drop parse failures, apply
`winAdvFilter`, then build the device — a failed `Device::from_addr` is
logged and dropped, a successful one yields the `AdvertisingDevice`. -/
def winScanOutput (services : List Uuid) (received : List WinRecvEvent) :
    List AdvertisingDevice :=
  received.filterMap (fun ev =>
    match ev with
    | .ok addr rssi adv deviceOk =>
        if winAdvFilter services adv then
          if deviceOk then some ⟨addr, adv, rssi⟩ else none
        else none
    | .parseErr => none)

/-! ## Scan lifecycle (single-flight flag and watcher cleanup) -/

/-- State of one CoreBluetooth `Adapter` (shared across its clones): the
`Arc<AtomicBool>` scanning flag and the number of scan streams that have
been successfully started and not yet dropped. -/
structure CBScanState where
  scanning : Bool
  activeScans : Nat
deriving DecidableEq

/-- The initial adapter state (`Adapter::default` creates the flag as
`false`, `src/corebluetooth/adapter.rs:70`). -/
def CBScanState.init : CBScanState := ⟨false, 0⟩

/-- Scan lifecycle transitions of a CoreBluetooth adapter while powered
on: a `scan` call whose `swap` finds the flag clear claims it and starts
the native scan; a call that finds it set fails with `AlreadyScanning` and
changes nothing; dropping a live scan stream runs the scope guard
(`src/corebluetooth/adapter.rs:158-161`) which stops the native scan and
clears the flag. -/
inductive CBScanStep : CBScanState → CBScanState → Prop
  | startOk (s : CBScanState) : s.scanning = false →
      CBScanStep s ⟨true, s.activeScans + 1⟩
  | startFail (s : CBScanState) : s.scanning = true → CBScanStep s s
  | dropScan (s : CBScanState) : 0 < s.activeScans →
      CBScanStep s ⟨false, s.activeScans - 1⟩

/-- States reachable from the initial CoreBluetooth adapter state. -/
inductive CBReach : CBScanState → Prop
  | init : CBReach CBScanState.init
  | step {s t : CBScanState} : CBReach s → CBScanStep s t → CBReach t

/-- Scan lifecycle transitions of a Windows adapter, tracked as the count
of active native advertisement watchers: every `scan` call creates and
starts its own watcher with no precondition (`src/windows/adapter.rs:245`
and `:275`); dropping a scan stream runs its `defer` guard which stops
that watcher (`src/windows/adapter.rs:276-280`). -/
inductive WinScanStep : Nat → Nat → Prop
  | start (n : Nat) : WinScanStep n (n + 1)
  | dropScan (n : Nat) : 0 < n → WinScanStep n (n - 1)

/-- Watcher counts reachable on a Windows adapter starting from none. -/
inductive WinReach : Nat → Prop
  | init : WinReach 0
  | step {m n : Nat} : WinReach m → WinScanStep m n → WinReach n

/-! ## Connected-device enumeration -/

/-- A connected peripheral as the native framework knows it: its identity
and the services it exposes. -/
structure PeripheralInfo where
  id : DeviceId
  services : List Uuid
deriving DecidableEq

/-- Modelled from the spec: the native CoreBluetooth
`retrieveConnectedPeripheralsWithServices` query (an out-of-scope native
collaborator): given the connected peripherals, `nil` services returns
them all, and a service list returns those exposing at least one listed
service. -/
def retrieveConnectedPeripherals (connected : List PeripheralInfo)
    (filter : Option (List Uuid)) : List PeripheralInfo :=
  match filter with
  | none => connected
  | some fs => connected.filter (fun p => p.services.any (fun s => fs.contains s))

/-- CoreBluetooth `Adapter::connected_devices`
(`src/corebluetooth/adapter.rs:127-137`): an empty `services` slice is
turned into `None`, a non-empty one into the native UUID list; the
returned peripherals are wrapped as devices (represented by identity). -/
def cbConnectedDevices (connected : List PeripheralInfo) (services : List Uuid) :
    List DeviceId :=
  (retrieveConnectedPeripherals connected
      (if services.isEmpty then none else some services)).map (fun p => p.id)

/-- Windows `Adapter::connected_devices` (`src/windows/adapter.rs:120-140`):
enumerate every device whose connection status is `Connected` and build a
device handle for each. -/
def winConnectedAll (connected : List PeripheralInfo) : List DeviceId :=
  connected.map (fun p => p.id)

/-- Insertion into the `HashSet` of device identities
(`src/windows/adapter.rs:218-223`), modelled as order-preserving
duplicate-free insertion. -/
def insertIdSet (acc : List DeviceId) (id : DeviceId) : List DeviceId :=
  if acc.contains id then acc else acc ++ [id]

/-- Windows `Adapter::connected_devices_with_services`
(`src/windows/adapter.rs:147-234`): `assert!(!services.is_empty())`
(modelled as `none` = panic); if there are no connected devices return
`[]` early; otherwise the association-endpoint-service query returns one
row per (connected device, exposed service in the filter) pair carrying
the device identity, and the identities are de-duplicated through a set
before the devices are built. -/
def winConnectedWithServices (connected : List PeripheralInfo) (services : List Uuid) :
    Option (List DeviceId) :=
  if services.isEmpty then none
  else if connected.isEmpty then some []
  else
    let rows := connected.flatMap (fun dv =>
      (dv.services.filter (fun s => services.contains s)).map (fun _ => dv.id))
    some (rows.foldl insertIdSet [])

/-- Modelled from the spec: the public connected-device enumeration on the
Windows backend (the crate-level dispatcher is not under `src/`): an empty
filter uses the all-connected query, a non-empty one the service-joining
query. -/
def winConnectedDevices (connected : List PeripheralInfo) (services : List Uuid) :
    Option (List DeviceId) :=
  if services.isEmpty then some (winConnectedAll connected)
  else winConnectedWithServices connected services

/-! ## Advertising encoders -/

/-- `u16::to_le_bytes` on the company identifier: `(low byte, high byte)`. -/
def u16LeBytes (c : Nat) : Nat × Nat := (c % 256, c / 256 % 256)

/-- The combined manufacturer payload built by CoreBluetooth
`start_advertising` (`src/corebluetooth/advertisement.rs:62-67`): with
`c = company_id.to_le_bytes()`, the code emits `[c[1], c[0]]` — the high
byte first — followed by the manufacturer data bytes unchanged. -/
def cbCombinedData (m : ManufacturerData) : List Nat :=
  let c := u16LeBytes m.companyId
  [c.2, c.1] ++ m.data

/-- The advertisement dictionary CoreBluetooth `start_advertising` hands
to `startAdvertising:`: only the `kCBAdvDataManufacturerData` entry is
ever populated. -/
structure CBAdvertisementDict where
  manufacturerData : Option (List Nat)
deriving DecidableEq

/-- CoreBluetooth `AdvertisementImpl::start_advertising`
(`src/corebluetooth/advertisement.rs:41-93`): the peripheral manager is
created if absent (so the final `Err` branch is unreachable), the
dictionary gains a manufacturer-data entry only when
`data.manufacturer_data` is present, and the call returns the guard
successfully in both cases.  No other `AdvertisementData` field is read. -/
def cbStartAdvertising (data : AdvertisementData) : Except String CBAdvertisementDict :=
  .ok { manufacturerData := data.manufacturerData.map cbCombinedData }

/-- The native advertisement built by Windows `start_advertising`: the
manufacturer-data sections appended to it, each `(CompanyId, Data)`. -/
structure WinAdvertisement where
  manufacturerData : List (Nat × List Nat)
deriving DecidableEq

/-- Windows `AdvertisementImpl::start_advertising`
(`src/windows/advertisement.rs:102-132`): when `data.manufacturer_data`
is present, a `BluetoothLEManufacturerData` section is built via
`SetCompanyId` / `SetData` (the 16-bit id and the bytes are handed to the
native framework unchanged) and appended, and the publisher is started;
otherwise the call fails with the error string `"no data to send."`.  No
other `AdvertisementData` field is read. -/
def winStartAdvertising (data : AdvertisementData) : Except String WinAdvertisement :=
  match data.manufacturerData with
  | some m => .ok { manufacturerData := [(m.companyId, m.data)] }
  | none => .error "no data to send."

/-- Whether a bridged item is one of the events that can resolve a
`connect_device(d)` call: a `Connect` or `ConnectFailed` event whose
identity equals the target's. -/
def isConnectDeciding (d : DeviceId) (it : BridgeItem) : Bool :=
  match it with
  | .event (.connect p) => p == d
  | .event (.connectFailed p _) => p == d
  | _ => false

/-- Whether a bridged item is one of the events that can resolve a
`disconnect_device(d)` call: a `Disconnect` event whose identity equals
the target's. -/
def isDisconnectDeciding (d : DeviceId) (it : BridgeItem) : Bool :=
  match it with
  | .event (.disconnect p _) => p == d
  | _ => false

/-! ## Helper lemmas -/

theorem loopProgress_append (step : CBManagerState → BridgeItem → StepResult)
    (xs ys : List (CBManagerState × BridgeItem)) :
    loopProgress step (xs ++ ys) =
      match loopProgress step xs with
      | .resolved r => .resolved r
      | .waiting => loopProgress step ys := by
  induction xs with
  | nil => simp [loopProgress]
  | cons q rest ih =>
      obtain ⟨s, it⟩ := q
      simp only [List.cons_append, loopProgress]
      cases step s it with
      | resolved r => rfl
      | waiting => exact ih

theorem connectStep_waiting_of_not_deciding (d : DeviceId) (it : BridgeItem)
    (h : isConnectDeciding d it = false) :
    connectStep d CBManagerState.poweredOn it = .waiting := by
  cases it with
  | lagged n => rfl
  | event e =>
      cases e with
      | stateChanged => rfl
      | discovered p adv rssi => rfl
      | connect p =>
          simp only [isConnectDeciding, beq_eq_false_iff_ne] at h
          simp [connectStep, h]
      | connectFailed p err =>
          simp only [isConnectDeciding, beq_eq_false_iff_ne] at h
          simp [connectStep, h]
      | disconnect p err => rfl

theorem disconnectStep_waiting_of_not_deciding (d : DeviceId) (it : BridgeItem)
    (h : isDisconnectDeciding d it = false) :
    disconnectStep d CBManagerState.poweredOn it = .waiting := by
  cases it with
  | lagged n => rfl
  | event e =>
      cases e with
      | stateChanged => rfl
      | discovered p adv rssi => rfl
      | connect p => rfl
      | connectFailed p err => rfl
      | disconnect p err =>
          simp only [isDisconnectDeciding, beq_eq_false_iff_ne] at h
          simp [disconnectStep, h]

theorem loopProgress_waiting_of_all_waiting (step : CBManagerState → BridgeItem → StepResult)
    (evs : List (CBManagerState × BridgeItem))
    (h : ∀ q ∈ evs, step q.1 q.2 = .waiting) :
    loopProgress step evs = .waiting := by
  induction evs with
  | nil => rfl
  | cons q rest ih =>
      have hq := h q (List.mem_cons_self q rest)
      simp only [loopProgress, hq]
      exact ih (fun r hr => h r (List.mem_cons_of_mem q hr))

theorem connectStep_ok_inversion (d : DeviceId) (s : CBManagerState) (it : BridgeItem)
    (h : connectStep d s it = .resolved (.ok ())) :
    s = CBManagerState.poweredOn ∧ it = .event (.connect d) := by
  by_cases hs : s = CBManagerState.poweredOn
  · subst hs
    refine ⟨rfl, ?_⟩
    cases it with
    | lagged n => simp [connectStep] at h
    | event e =>
        cases e with
        | stateChanged => simp [connectStep] at h
        | discovered p adv rssi => simp [connectStep] at h
        | connect p =>
            by_cases hp : p = d
            · rw [hp]
            · simp [connectStep, hp] at h
        | connectFailed p err =>
            by_cases hp : p = d
            · simp [connectStep, hp] at h
            · simp [connectStep, hp] at h
        | disconnect p err => simp [connectStep] at h
  · simp [connectStep, hs] at h

theorem takeWhile_append_of_all {α : Type} (p : α → Bool) (xs ys : List α)
    (h : ∀ x ∈ xs, p x = true) :
    (xs ++ ys).takeWhile p = xs ++ ys.takeWhile p := by
  induction xs with
  | nil => simp
  | cons a t ih =>
      have ha := h a (List.mem_cons_self a t)
      simp only [List.cons_append, List.takeWhile_cons, ha, if_true]
      rw [ih (fun x hx => h x (List.mem_cons_of_mem a hx))]

theorem mem_foldl_insertIdSet (rows : List DeviceId) (init : List DeviceId) (a : DeviceId) :
    a ∈ rows.foldl insertIdSet init ↔ a ∈ init ∨ a ∈ rows := by
  induction rows generalizing init with
  | nil => simp
  | cons r rest ih =>
      simp only [List.foldl_cons, ih, List.mem_cons]
      unfold insertIdSet
      by_cases hr : init.contains r = true
      · rw [if_pos hr]
        have hrm : r ∈ init := by simpa using hr
        constructor
        · rintro (h | h)
          · exact Or.inl h
          · exact Or.inr (Or.inr h)
        · rintro (h | h | h)
          · exact Or.inl h
          · exact Or.inl (h ▸ hrm)
          · exact Or.inr h
      · rw [if_neg hr]
        simp only [List.mem_append, List.mem_singleton]
        tauto

theorem nodup_foldl_insertIdSet (rows : List DeviceId) (init : List DeviceId)
    (h : init.Nodup) : (rows.foldl insertIdSet init).Nodup := by
  induction rows generalizing init with
  | nil => exact h
  | cons r rest ih =>
      simp only [List.foldl_cons]
      apply ih
      unfold insertIdSet
      by_cases hr : init.contains r = true
      · rw [if_pos hr]; exact h
      · rw [if_neg hr]
        rw [List.nodup_append]
        refine ⟨h, List.nodup_singleton r, ?_⟩
        intro a ha hb
        rw [List.mem_singleton] at hb
        subst hb
        have : a ∉ init := by simpa using hr
        exact this ha

theorem cbStep_invariant {s t : CBScanState} (hstep : CBScanStep s t)
    (ih : (s.scanning = true → s.activeScans = 1) ∧
      (s.scanning = false → s.activeScans = 0)) :
    (t.scanning = true → t.activeScans = 1) ∧
    (t.scanning = false → t.activeScans = 0) := by
  cases hstep with
  | startOk hfalse =>
      have h0 := ih.2 hfalse
      exact ⟨fun _ => by simp [h0], fun h => by simp at h⟩
  | startFail htrue => exact ih
  | dropScan hpos =>
      refine ⟨fun h => by simp at h, fun _ => ?_⟩
      show s.activeScans - 1 = 0
      by_cases hsc : s.scanning = true
      · have := ih.1 hsc
        omega
      · rw [Bool.not_eq_true] at hsc
        have := ih.2 hsc
        omega

theorem cbReach_invariant {s : CBScanState} (h : CBReach s) :
    (s.scanning = true → s.activeScans = 1) ∧
    (s.scanning = false → s.activeScans = 0) := by
  induction h with
  | init => exact ⟨fun h => by simp [CBScanState.init] at h, fun _ => rfl⟩
  | step hr hstep ih => exact cbStep_invariant hstep ih

/-! ## Claim theorems -/

/-- C1: `disconnect_device(d)` is claimed to complete successfully when a
matching `Disconnect` event carries no native error.  The code disagrees:
the matching arm unconditionally returns an error, falling back to
`ConnectionFailed` when no native error was supplied
(`src/corebluetooth/adapter.rs:227-231`) — the success break is missing,
so a clean disconnect is reported as a failure. -/
theorem c1_clean_disconnect_reported_as_failure :
    disconnectDevice CBManagerState.poweredOn 0
      [(CBManagerState.poweredOn, BridgeItem.event (CentralEvent.disconnect 0 none))] =
      Except.error (BError.kind ErrorKind.connectionFailed) := rfl

/-- C2 counterexample: with the bridged stream ending after zero events,
both `connect_device` and `disconnect_device` fall out of their `while
let` loops and return `Ok(())` — not the claimed `Internal` error, and
contrary to "never resolves successfully". -/
theorem c2_counterexample :
    connectDevice CBManagerState.poweredOn 0 [] = Except.ok () ∧
    disconnectDevice CBManagerState.poweredOn 0 [] = Except.ok () ∧
    connectDevice CBManagerState.poweredOn 0 [] ≠
      Except.error (BError.kind ErrorKind.internal) := by
  decide

/-- C2 (amended): if the bridged event stream ends before an event
matching the target's identity arrives (every received item leaves the
loop waiting), the call resolves — it never hangs — but it resolves
successfully with `Ok(())`, not with an `Internal` error. -/
theorem c2_stream_end_resolves_ok (d : DeviceId)
    (evs evs2 : List (CBManagerState × BridgeItem))
    (h1 : ∀ q ∈ evs, q.1 = CBManagerState.poweredOn ∧ isConnectDeciding d q.2 = false)
    (h2 : ∀ q ∈ evs2, q.1 = CBManagerState.poweredOn ∧ isDisconnectDeciding d q.2 = false) :
    connectDevice CBManagerState.poweredOn d evs = Except.ok () ∧
    disconnectDevice CBManagerState.poweredOn d evs2 = Except.ok () := by
  constructor
  · have hw : connectProgress d evs = .waiting := by
      apply loopProgress_waiting_of_all_waiting
      intro q hq
      obtain ⟨hs, hd⟩ := h1 q hq
      rw [hs]
      exact connectStep_waiting_of_not_deciding d q.2 hd
    simp [connectDevice, connectCall, hw]
  · have hw : disconnectProgress d evs2 = .waiting := by
      apply loopProgress_waiting_of_all_waiting
      intro q hq
      obtain ⟨hs, hd⟩ := h2 q hq
      rw [hs]
      exact disconnectStep_waiting_of_not_deciding d q.2 hd
    simp [disconnectDevice, disconnectCall, hw]

/-- C2 witness: a concrete non-matching event and a lag item leave both
calls resolving `Ok(())` at stream end. -/
theorem c2_stream_end_resolves_ok_witness :
    connectDevice CBManagerState.poweredOn 0
        [(CBManagerState.poweredOn, BridgeItem.event (CentralEvent.connect 1))] =
      Except.ok () ∧
    disconnectDevice CBManagerState.poweredOn 0
        [(CBManagerState.poweredOn, BridgeItem.lagged 3)] = Except.ok () :=
  c2_stream_end_resolves_ok 0
    [(CBManagerState.poweredOn, BridgeItem.event (CentralEvent.connect 1))]
    [(CBManagerState.poweredOn, BridgeItem.lagged 3)]
    (by decide) (by decide)

/-- C3 counterexample: for company id `0x004C` and payload `[0x02, 0x15]`,
the CoreBluetooth encoder emits `[0x00, 0x4C, 0x02, 0x15]` — the id bytes
high byte first — not the claimed little-endian prefix `[0x4C, 0x00]`. -/
theorem c3_counterexample :
    cbCombinedData ⟨0x004C, [0x02, 0x15]⟩ = [0x00, 0x4C, 0x02, 0x15] ∧
    (cbCombinedData ⟨0x004C, [0x02, 0x15]⟩).take 2 ≠ [0x4C, 0x00] := by
  decide

/-- C3 (amended): the CoreBluetooth encoder places the 16-bit company id
in the first two wire bytes in big-endian order (high byte first) — `c =
id.to_le_bytes()` is emitted as `[c[1], c[0]]` — and the payload bytes
that follow are exactly the manufacturer data, unchanged; the Windows
encoder performs no byte serialization, handing the 16-bit id and the
payload to the native section unchanged. -/
theorem c3_company_id_big_endian (m : ManufacturerData) (data : AdvertisementData)
    (hlt : m.companyId < 65536) (hm : data.manufacturerData = some m) :
    (cbCombinedData m).take 2 = [m.companyId / 256, m.companyId % 256] ∧
    (cbCombinedData m).drop 2 = m.data ∧
    winStartAdvertising data = Except.ok ⟨[(m.companyId, m.data)]⟩ := by
  refine ⟨?_, rfl, ?_⟩
  · have h1 : (cbCombinedData m).take 2 =
        [m.companyId / 256 % 256, m.companyId % 256] := rfl
    have h2 : m.companyId / 256 < 256 :=
      (Nat.div_lt_iff_lt_mul (by norm_num)).mpr (by omega)
    rw [h1, Nat.mod_eq_of_lt h2]
  · simp [winStartAdvertising, hm]

/-- C3 witness: the amended statement evaluated at company id `0x004C`
and payload `[0x02, 0x15]`. -/
theorem c3_company_id_big_endian_witness :
    (cbCombinedData ⟨0x004C, [0x02, 0x15]⟩).take 2 = [0x004C / 256, 0x004C % 256] ∧
    (cbCombinedData ⟨0x004C, [0x02, 0x15]⟩).drop 2 = [0x02, 0x15] ∧
    winStartAdvertising ⟨none, some ⟨0x004C, [0x02, 0x15]⟩, [], [], [], none, false⟩ =
      Except.ok ⟨[(0x004C, [0x02, 0x15])]⟩ :=
  c3_company_id_big_endian ⟨0x004C, [0x02, 0x15]⟩
    ⟨none, some ⟨0x004C, [0x02, 0x15]⟩, [], [], [], none, false⟩
    (by decide) rfl

/-- C4 counterexample: the Windows `scan` never fails with
`AdapterUnavailable` or `AlreadyScanning` — with the radio off it still
succeeds and starts the native watcher, refuting "on any backend ... both
checks happen before any native scan command is issued". -/
theorem c4_counterexample :
    winScanCall RadioState.off = ([WinCommand.watcherStart], Except.ok ()) ∧
    (winScanCall RadioState.off).2 ≠
      Except.error (BError.kind ErrorKind.adapterUnavailable) ∧
    (winScanCall RadioState.off).2 ≠
      Except.error (BError.kind ErrorKind.alreadyScanning) := by
  decide

/-- C4 (amended): on the CoreBluetooth backend, `scan` fails immediately
with `AdapterUnavailable` when the central is not powered on, and with
`AlreadyScanning` when the atomically swapped scanning flag was already
set, in both cases issuing no native command; only with both checks
passed does it issue the native scan command.  The Windows backend's
`scan` performs neither check and starts its watcher unconditionally. -/
theorem c4_scan_preconditions (state : CBManagerState) (scanning : Bool)
    (services : List Uuid) (rs : RadioState)
    (hoff : state ≠ CBManagerState.poweredOn) :
    cbScanCall state scanning services =
      ⟨[], scanning, Except.error (BError.kind ErrorKind.adapterUnavailable)⟩ ∧
    cbScanCall CBManagerState.poweredOn true services =
      ⟨[], true, Except.error (BError.kind ErrorKind.alreadyScanning)⟩ ∧
    cbScanCall CBManagerState.poweredOn false services =
      ⟨[CBCommand.scanForPeripherals (if services.isEmpty then none else some services)],
        true, Except.ok ()⟩ ∧
    winScanCall rs = ([WinCommand.watcherStart], Except.ok ()) := by
  refine ⟨?_, rfl, rfl, rfl⟩
  simp [cbScanCall, hoff]

/-- C4 witness: the amended statement evaluated with the central powered
off, a clear flag and the one-element service filter `[7]`. -/
theorem c4_scan_preconditions_witness :
    cbScanCall CBManagerState.poweredOff false [7] =
      ⟨[], false, Except.error (BError.kind ErrorKind.adapterUnavailable)⟩ ∧
    cbScanCall CBManagerState.poweredOn true [7] =
      ⟨[], true, Except.error (BError.kind ErrorKind.alreadyScanning)⟩ ∧
    cbScanCall CBManagerState.poweredOn false [7] =
      ⟨[CBCommand.scanForPeripherals (if ([7] : List Uuid).isEmpty then none else some [7])],
        true, Except.ok ()⟩ ∧
    winScanCall RadioState.on = ([WinCommand.watcherStart], Except.ok ()) :=
  c4_scan_preconditions CBManagerState.poweredOff false [7] RadioState.on (by decide)

/-- C10: both `start_advertising` implementations read only the
`manufacturer_data` field — two inputs agreeing on it produce identical
outputs — and when it is absent the Windows backend fails with the error
string `"no data to send."` while the CoreBluetooth backend succeeds with
an empty advertisement dictionary; when present, Windows appends the
`(company_id, data)` section and CoreBluetooth stores the combined byte
payload. -/
theorem c10_only_manufacturer_data_encoded (data d₂ : AdvertisementData)
    (hsame : data.manufacturerData = d₂.manufacturerData) :
    (data.manufacturerData = none →
      winStartAdvertising data = Except.error "no data to send." ∧
      cbStartAdvertising data = Except.ok ⟨none⟩) ∧
    (∀ m, data.manufacturerData = some m →
      winStartAdvertising data = Except.ok ⟨[(m.companyId, m.data)]⟩ ∧
      cbStartAdvertising data = Except.ok ⟨some (cbCombinedData m)⟩) ∧
    winStartAdvertising data = winStartAdvertising d₂ ∧
    cbStartAdvertising data = cbStartAdvertising d₂ := by
  refine ⟨?_, ?_, ?_, ?_⟩
  · intro h
    exact ⟨by simp [winStartAdvertising, h], by simp [cbStartAdvertising, h]⟩
  · intro m h
    exact ⟨by simp [winStartAdvertising, h], by simp [cbStartAdvertising, h]⟩
  · simp [winStartAdvertising, hsame]
  · simp [cbStartAdvertising, hsame]

/-- C10 witness: two advertisements without manufacturer data that differ
in every other field encode identically, and the absent-data behaviors
evaluate as stated. -/
theorem c10_only_manufacturer_data_encoded_witness :
    winStartAdvertising ⟨some "x", none, [1], [2], [(3, [4])], some 5, true⟩ =
      winStartAdvertising ⟨none, none, [], [], [], none, false⟩ ∧
    winStartAdvertising ⟨some "x", none, [1], [2], [(3, [4])], some 5, true⟩ =
      Except.error "no data to send." ∧
    cbStartAdvertising ⟨some "x", none, [1], [2], [(3, [4])], some 5, true⟩ =
      Except.ok ⟨none⟩ :=
  ⟨(c10_only_manufacturer_data_encoded
      ⟨some "x", none, [1], [2], [(3, [4])], some 5, true⟩
      ⟨none, none, [], [], [], none, false⟩ rfl).2.2.1,
   ((c10_only_manufacturer_data_encoded
      ⟨some "x", none, [1], [2], [(3, [4])], some 5, true⟩
      ⟨none, none, [], [], [], none, false⟩ rfl).1 rfl).1,
   ((c10_only_manufacturer_data_encoded
      ⟨some "x", none, [1], [2], [(3, [4])], some 5, true⟩
      ⟨none, none, [], [], [], none, false⟩ rfl).1 rfl).2⟩

/-- C5 counterexample: on the Windows backend two concurrent `scan` calls
are both accepted, reaching a state with two simultaneously active native
watchers — refuting "at most one native scan watcher is active at any
instant" for every backend. -/
theorem c5_counterexample : WinReach 2 ∧ ¬(2 ≤ 1) :=
  ⟨WinReach.step (WinReach.step WinReach.init (WinScanStep.start 0))
      (WinScanStep.start 1),
    by decide⟩

/-- C5 (amended): on the CoreBluetooth backend at most one scan stream is
active in any reachable adapter state; a state holding a live scan is
exactly `⟨scanning, 1⟩` and dropping that stream steps to the initial
state (native scan stopped, flag cleared), after which a `scan` call on a
powered-on adapter succeeds; on the Windows backend dropping a scan
stream stops that scan's own watcher, but single-flight does not hold. -/
theorem c5_single_flight_and_cleanup (s t : CBScanState) (services : List Uuid)
    (n : Nat) (hs : CBReach s) (ht : CBReach t) (hpos : 0 < t.activeScans)
    (hn : 0 < n) :
    s.activeScans ≤ 1 ∧
    t = ⟨true, 1⟩ ∧
    CBScanStep t CBScanState.init ∧
    (cbScanCall CBManagerState.poweredOn CBScanState.init.scanning services).result =
      Except.ok () ∧
    WinScanStep n (n - 1) := by
  have hinv := cbReach_invariant hs
  have hinvt := cbReach_invariant ht
  have hs1 : s.activeScans ≤ 1 := by
    by_cases hsc : s.scanning = true
    · simp [hinv.1 hsc]
    · rw [Bool.not_eq_true] at hsc
      simp [hinv.2 hsc]
  have htt : t.scanning = true := by
    by_cases htc : t.scanning = true
    · exact htc
    · rw [Bool.not_eq_true] at htc
      have := hinvt.2 htc
      omega
  have hta : t.activeScans = 1 := hinvt.1 htt
  have hteq : t = ⟨true, 1⟩ := by
    cases t
    simp only at htt hta
    rw [htt, hta]
  refine ⟨hs1, hteq, ?_, ?_, WinScanStep.dropScan n hn⟩
  · have := CBScanStep.dropScan t hpos
    rw [hteq] at this ⊢
    simpa [CBScanState.init] using this
  · simp [cbScanCall, CBScanState.init]

/-- C5 witness: the amended statement evaluated at the reachable
one-active-scan state `⟨true, 1⟩` and one Windows watcher. -/
theorem c5_single_flight_and_cleanup_witness :
    (⟨true, 1⟩ : CBScanState).activeScans ≤ 1 ∧
    (⟨true, 1⟩ : CBScanState) = ⟨true, 1⟩ ∧
    CBScanStep ⟨true, 1⟩ CBScanState.init ∧
    (cbScanCall CBManagerState.poweredOn CBScanState.init.scanning [5]).result =
      Except.ok () ∧
    WinScanStep 1 (1 - 1) :=
  c5_single_flight_and_cleanup ⟨true, 1⟩ ⟨true, 1⟩ [5] 1
    (CBReach.step CBReach.init (CBScanStep.startOk CBScanState.init rfl))
    (CBReach.step CBReach.init (CBScanStep.startOk CBScanState.init rfl))
    (by decide) (by decide)

/-- C6: once the adapter is unavailable no embedded operation keeps
waiting: processing any bridged item while the central state is not
powered on resolves `connect_device` and `disconnect_device` with
`AdapterUnavailable` (the state is re-checked on every received event),
and the scan stream emits nothing from the first item observed in a
non-powered-on state onward, ending without an error value. -/
theorem c6_unavailable_aborts_waits (d : DeviceId) (s : CBManagerState)
    (it : BridgeItem) (pre rest : List (CBManagerState × BridgeItem))
    (q : CBManagerState × BridgeItem)
    (hs : s ≠ CBManagerState.poweredOn)
    (hpre : ∀ r ∈ pre, r.1 = CBManagerState.poweredOn)
    (hq : q.1 ≠ CBManagerState.poweredOn)
    (hwaitc : connectProgress d pre = .waiting)
    (hwaitd : disconnectProgress d pre = .waiting) :
    connectStep d s it = .resolved (.error (.kind .adapterUnavailable)) ∧
    disconnectStep d s it = .resolved (.error (.kind .adapterUnavailable)) ∧
    cbScanOutput (pre ++ q :: rest) = cbScanOutput pre ∧
    connectProgress d (pre ++ q :: rest) =
      .resolved (.error (.kind .adapterUnavailable)) ∧
    disconnectProgress d (pre ++ q :: rest) =
      .resolved (.error (.kind .adapterUnavailable)) := by
  obtain ⟨qs, qit⟩ := q
  simp only at hq
  have hqb : (qs == CBManagerState.poweredOn) = false := beq_eq_false_iff_ne.mpr hq
  have hstepc : connectStep d qs qit = .resolved (.error (.kind .adapterUnavailable)) := by
    simp [connectStep, hq]
  have hstepd : disconnectStep d qs qit =
      .resolved (.error (.kind .adapterUnavailable)) := by
    simp [disconnectStep, hq]
  refine ⟨by simp [connectStep, hs], by simp [disconnectStep, hs], ?_, ?_, ?_⟩
  · have h1 : (pre ++ (qs, qit) :: rest).takeWhile
        (fun p => p.1 == CBManagerState.poweredOn) =
        pre ++ ((qs, qit) :: rest).takeWhile (fun p => p.1 == CBManagerState.poweredOn) :=
      takeWhile_append_of_all _ pre _ (fun x hx => by simp [hpre x hx])
    have h2 : ((qs, qit) :: rest).takeWhile
        (fun p => p.1 == CBManagerState.poweredOn) = [] := by
      simp [List.takeWhile_cons, hqb]
    have h3 : pre.takeWhile (fun p => p.1 == CBManagerState.poweredOn) = pre := by
      have := takeWhile_append_of_all (fun p => p.1 == CBManagerState.poweredOn) pre []
        (fun x hx => by simp [hpre x hx])
      simpa using this
    simp [cbScanOutput, h1, h2, h3]
  · unfold connectProgress at hwaitc ⊢
    rw [loopProgress_append, hwaitc]
    simp [loopProgress, hstepc]
  · unfold disconnectProgress at hwaitd ⊢
    rw [loopProgress_append, hwaitd]
    simp [loopProgress, hstepd]

/-- C6 witness: with one non-matching powered-on event already received,
a powered-off item aborts both waits with `AdapterUnavailable` and
truncates the scan stream. -/
theorem c6_unavailable_aborts_waits_witness :
    connectStep 0 CBManagerState.poweredOff (BridgeItem.lagged 2) =
      StepResult.resolved (Except.error (BError.kind ErrorKind.adapterUnavailable)) ∧
    disconnectStep 0 CBManagerState.poweredOff (BridgeItem.lagged 2) =
      StepResult.resolved (Except.error (BError.kind ErrorKind.adapterUnavailable)) ∧
    cbScanOutput [(CBManagerState.poweredOn, BridgeItem.event (CentralEvent.connect 1)),
        (CBManagerState.poweredOff, BridgeItem.event (CentralEvent.connect 0))] =
      cbScanOutput [(CBManagerState.poweredOn, BridgeItem.event (CentralEvent.connect 1))] ∧
    connectProgress 0 [(CBManagerState.poweredOn, BridgeItem.event (CentralEvent.connect 1)),
        (CBManagerState.poweredOff, BridgeItem.event (CentralEvent.connect 0))] =
      StepResult.resolved (Except.error (BError.kind ErrorKind.adapterUnavailable)) ∧
    disconnectProgress 0 [(CBManagerState.poweredOn, BridgeItem.event (CentralEvent.connect 1)),
        (CBManagerState.poweredOff, BridgeItem.event (CentralEvent.connect 0))] =
      StepResult.resolved (Except.error (BError.kind ErrorKind.adapterUnavailable)) :=
  c6_unavailable_aborts_waits 0 CBManagerState.poweredOff (BridgeItem.lagged 2)
    [(CBManagerState.poweredOn, BridgeItem.event (CentralEvent.connect 1))] []
    (CBManagerState.poweredOff, BridgeItem.event (CentralEvent.connect 0))
    (by decide) (by decide) (by decide) (by decide) (by decide)

/-- C7: a `connect_device(d)` call resolves successfully exactly by a
matching `Connect` event — receiving `Connect{d}` while powered on
resolves `Ok` and any successful resolution contains such an event;
`Connect`, `ConnectFailed` and `Disconnect` events for a different
identity are discarded (they neither resolve nor fail the call and leave
its progress unchanged); a matching `ConnectFailed` fails the call with
the wrapped native error, or `ConnectionFailed` when none was supplied. -/
theorem c7_connect_resolution (d p : DeviceId) (hne : p ≠ d) :
    (∀ evs, connectProgress d
        ((CBManagerState.poweredOn, BridgeItem.event (CentralEvent.connect d)) :: evs) =
        .resolved (.ok ())) ∧
    (∀ evs err, connectProgress d
        ((CBManagerState.poweredOn,
          BridgeItem.event (CentralEvent.connectFailed d err)) :: evs) =
        .resolved (.error (match err with
          | some code => .fromNSError code
          | none => .kind .connectionFailed))) ∧
    (∀ e₁ e₂,
      connectStep d CBManagerState.poweredOn (.event (.connect p)) = .waiting ∧
      connectStep d CBManagerState.poweredOn (.event (.connectFailed p e₁)) = .waiting ∧
      connectStep d CBManagerState.poweredOn (.event (.disconnect p e₂)) = .waiting) ∧
    (∀ s it evs, connectStep d s it = .waiting →
      connectProgress d ((s, it) :: evs) = connectProgress d evs) ∧
    (∀ evs, connectProgress d evs = .resolved (.ok ()) →
      ∃ pre rest, evs = pre ++
        (CBManagerState.poweredOn, BridgeItem.event (CentralEvent.connect d)) :: rest) := by
  refine ⟨?_, ?_, ?_, ?_, ?_⟩
  · intro evs
    simp [connectProgress, loopProgress, connectStep]
  · intro evs err
    simp [connectProgress, loopProgress, connectStep]
  · intro e₁ e₂
    refine ⟨?_, ?_, rfl⟩ <;> simp [connectStep, hne]
  · intro s it evs h
    simp [connectProgress, loopProgress, h]
  · intro evs
    induction evs with
    | nil => intro h; simp [connectProgress, loopProgress] at h
    | cons q rest ih =>
        intro h
        obtain ⟨s, it⟩ := q
        cases hstep : connectStep d s it with
        | resolved r =>
            have hr : StepResult.resolved r = .resolved (.ok ()) := by
              simpa [connectProgress, loopProgress, hstep] using h
            have hok : connectStep d s it = .resolved (.ok ()) := by
              rw [hstep]; exact hr
            obtain ⟨hs, hit⟩ := connectStep_ok_inversion d s it hok
            exact ⟨[], rest, by rw [hs, hit]; rfl⟩
        | waiting =>
            have h' : connectProgress d rest = .resolved (.ok ()) := by
              simpa [connectProgress, loopProgress, hstep] using h
            obtain ⟨pre, rest', heq⟩ := ih h'
            exact ⟨(s, it) :: pre, rest', by rw [heq]; rfl⟩

/-- C7 witness: a matching `Connect` resolves the call and concrete
events for a different identity are discarded. -/
theorem c7_connect_resolution_witness :
    connectProgress 0
        [(CBManagerState.poweredOn, BridgeItem.event (CentralEvent.connect 0))] =
      StepResult.resolved (Except.ok ()) ∧
    connectStep 0 CBManagerState.poweredOn
        (BridgeItem.event (CentralEvent.connect 1)) = StepResult.waiting ∧
    connectStep 0 CBManagerState.poweredOn
        (BridgeItem.event (CentralEvent.disconnect 1 (some 9))) = StepResult.waiting :=
  ⟨(c7_connect_resolution 0 1 (by decide)).1 [],
   ((c7_connect_resolution 0 1 (by decide)).2.2.1 none (some 9)).1,
   ((c7_connect_resolution 0 1 (by decide)).2.2.1 none (some 9)).2.2⟩

theorem filterMap_ext {α β : Type} (f g : α → Option β) (l : List α)
    (h : ∀ a, f a = g a) : l.filterMap f = l.filterMap g := by
  have : f = g := funext h
  rw [this]

theorem services_isEmpty_false (services : List Uuid) (hne : services ≠ []) :
    services.isEmpty = false := by
  cases services with
  | nil => exact absurd rfl hne
  | cons a t => rfl

/-- C8: connected-device enumeration.  With an empty filter both backends
return every connected device the native framework reports.  With a
non-empty filter the Windows backend joins the connected-device and
service queries, de-duplicating the device identities through a set: the
result is duplicate-free and holds exactly the identities of connected
devices exposing at least one requested service — in particular, when no
connected device matches it is the empty sequence, not an error — and the
CoreBluetooth backend returns the native query restricted to matching
peripherals. -/
theorem c8_connected_enumeration (connected : List PeripheralInfo)
    (services : List Uuid) (hne : services ≠ []) :
    cbConnectedDevices connected [] = connected.map (fun p => p.id) ∧
    winConnectedDevices connected [] = some (connected.map (fun p => p.id)) ∧
    (∃ l, winConnectedDevices connected services = some l ∧ l.Nodup ∧
      (∀ a, a ∈ l ↔ ∃ p ∈ connected, p.id = a ∧ ∃ s ∈ p.services, s ∈ services)) ∧
    ((∀ p ∈ connected, ∀ s ∈ p.services, s ∉ services) →
      winConnectedDevices connected services = some []) ∧
    cbConnectedDevices connected services =
      (connected.filter (fun p => p.services.any (fun s => services.contains s))).map
        (fun p => p.id) := by
  have hS := services_isEmpty_false services hne
  have h3 : ∃ l, winConnectedDevices connected services = some l ∧ l.Nodup ∧
      (∀ a, a ∈ l ↔ ∃ p ∈ connected, p.id = a ∧ ∃ s ∈ p.services, s ∈ services) := by
    by_cases hc : connected.isEmpty = true
    · have hcn : connected = [] := by simpa [List.isEmpty_iff] using hc
      refine ⟨[], ?_, List.nodup_nil, ?_⟩
      · simp [winConnectedDevices, winConnectedWithServices, hS, hcn]
      · intro a
        simp [hcn]
    · refine ⟨(connected.flatMap (fun dv =>
        (dv.services.filter (fun s => services.contains s)).map
          (fun _ => dv.id))).foldl insertIdSet [], ?_, ?_, ?_⟩
      · simp only [winConnectedDevices, winConnectedWithServices, hS]
        rw [Bool.not_eq_true] at hc
        simp [hc]
      · exact nodup_foldl_insertIdSet _ _ List.nodup_nil
      · intro a
        rw [mem_foldl_insertIdSet]
        simp only [List.not_mem_nil, false_or, List.mem_flatMap, List.mem_map,
          List.mem_filter]
        constructor
        · rintro ⟨dv, hdv, s, ⟨hsm, hsc⟩, hid⟩
          exact ⟨dv, hdv, hid, s, hsm, by simpa using hsc⟩
        · rintro ⟨dv, hdv, hid, s, hsm, hsc⟩
          exact ⟨dv, hdv, s, ⟨hsm, by simpa using hsc⟩, hid⟩
  refine ⟨by simp [cbConnectedDevices, retrieveConnectedPeripherals], rfl, h3, ?_, ?_⟩
  · intro hnomatch
    obtain ⟨l, hl, hnd, hmem⟩ := h3
    cases l with
    | nil => exact hl
    | cons b t =>
        exfalso
        obtain ⟨p, hp, _, s, hs, hss⟩ := (hmem b).mp (List.mem_cons_self b t)
        exact hnomatch p hp s hs hss
  · simp [cbConnectedDevices, retrieveConnectedPeripherals, hS]

/-- C8 witness: two connected devices; an empty filter returns both, a
non-matching filter returns the empty sequence, a matching filter joins
and de-duplicates. -/
theorem c8_connected_enumeration_witness :
    cbConnectedDevices [⟨1, [10]⟩, ⟨2, [11]⟩] [] = [1, 2] ∧
    winConnectedDevices [⟨1, [10]⟩, ⟨2, [11]⟩] [] = some [1, 2] ∧
    winConnectedDevices [⟨1, [10]⟩, ⟨2, [11]⟩] [99] = some [] ∧
    winConnectedDevices [⟨1, [10, 12]⟩, ⟨2, [11]⟩] [10, 12] = some [1] ∧
    cbConnectedDevices [⟨1, [10]⟩, ⟨2, [11]⟩] [10] = [1] := by
  refine ⟨(c8_connected_enumeration [⟨1, [10]⟩, ⟨2, [11]⟩] [99] (by decide)).1,
    (c8_connected_enumeration [⟨1, [10]⟩, ⟨2, [11]⟩] [99] (by decide)).2.1,
    (c8_connected_enumeration [⟨1, [10]⟩, ⟨2, [11]⟩] [99] (by decide)).2.2.2.1
      (by decide), ?_, ?_⟩
  · decide
  · rw [(c8_connected_enumeration [⟨1, [10]⟩, ⟨2, [11]⟩] [10] (by decide)).2.2.2.2]
    decide

/-- C9: scan service filtering.  On the Windows backend an empty filter
yields an element for every received advertisement (whose native parse
and device construction succeed), a singleton filter yields exactly the
received advertisements whose decoded services contain it, every yielded
element matches the filter, and matching is exactly "the advertisement's
services intersect the filter"; filtered-out advertisements produce no
element and no error value.  On the CoreBluetooth backend the stream
performs no layer filtering: while powered on it yields every `Discovered`
event the (natively pre-filtered) bridge delivers. -/
theorem c9_scan_service_filter (services : List Uuid) (serviceA : Uuid)
    (received : List WinRecvEvent) (pairs : List (CBManagerState × BridgeItem))
    (hon : ∀ q ∈ pairs, q.1 = CBManagerState.poweredOn) :
    winScanOutput [] received = received.filterMap (fun ev =>
      match ev with
      | .ok addr rssi adv true => some ⟨addr, adv, rssi⟩
      | _ => none) ∧
    winScanOutput [serviceA] received = received.filterMap (fun ev =>
      match ev with
      | .ok addr rssi adv true =>
          if adv.services.contains serviceA then some ⟨addr, adv, rssi⟩ else none
      | _ => none) ∧
    (∀ x ∈ winScanOutput services received, winAdvFilter services x.advData = true) ∧
    (∀ adv : AdvertisementData,
      winAdvFilter services adv = true ↔
        services = [] ∨ ∃ s ∈ services, s ∈ adv.services) ∧
    cbScanOutput pairs = pairs.filterMap (fun q => cbScanYield q.2) := by
  refine ⟨?_, ?_, ?_, ?_, ?_⟩
  · apply filterMap_ext
    intro ev
    cases ev with
    | parseErr => rfl
    | ok addr rssi adv devOk =>
        cases devOk <;> simp [winAdvFilter]
  · apply filterMap_ext
    intro ev
    cases ev with
    | parseErr => rfl
    | ok addr rssi adv devOk =>
        cases devOk <;> simp [winAdvFilter]
  · intro x hx
    rw [winScanOutput, List.mem_filterMap] at hx
    obtain ⟨ev, hev, hf⟩ := hx
    cases ev with
    | parseErr => simp at hf
    | ok addr rssi adv devOk =>
        by_cases hflt : winAdvFilter services adv = true
        · cases devOk with
          | false => simp [hflt] at hf
          | true =>
              simp only [hflt, if_true] at hf
              injection hf with hf
              rw [← hf]
              exact hflt
        · rw [Bool.not_eq_true] at hflt
          simp [hflt] at hf
  · intro adv
    simp only [winAdvFilter, Bool.or_eq_true, List.any_eq_true, List.isEmpty_iff]
    constructor
    · rintro (h | ⟨s, hs, hc⟩)
      · exact Or.inl h
      · exact Or.inr ⟨s, hs, by simpa using hc⟩
    · rintro (h | ⟨s, hs, hc⟩)
      · exact Or.inl h
      · exact Or.inr ⟨s, hs, by simpa using hc⟩
  · have h3 : pairs.takeWhile (fun p => p.1 == CBManagerState.poweredOn) = pairs := by
      have := takeWhile_append_of_all (fun p => p.1 == CBManagerState.poweredOn) pairs []
        (fun x hx => by simp [hon x hx])
      simpa using this
    simp [cbScanOutput, h3]

/-- C9 witness: a matching and a non-matching advertisement under the
empty and singleton filters, and a CoreBluetooth discovered event. -/
theorem c9_scan_service_filter_witness :
    winScanOutput []
        [WinRecvEvent.ok 5 (some (-40)) ⟨none, none, [10], [], [], none, false⟩ true,
         WinRecvEvent.parseErr] =
      [⟨5, ⟨none, none, [10], [], [], none, false⟩, some (-40)⟩] ∧
    winScanOutput [11]
        [WinRecvEvent.ok 5 (some (-40)) ⟨none, none, [10], [], [], none, false⟩ true,
         WinRecvEvent.ok 6 none ⟨none, none, [11], [], [], none, true⟩ true] =
      [⟨6, ⟨none, none, [11], [], [], none, true⟩, none⟩] ∧
    cbScanOutput [(CBManagerState.poweredOn,
        BridgeItem.event (CentralEvent.discovered 7
          ⟨none, none, [10], [], [], none, false⟩ (-33)))] =
      [⟨7, ⟨none, none, [10], [], [], none, false⟩, some (-33)⟩] := by
  refine ⟨?_, ?_, ?_⟩
  · rw [(c9_scan_service_filter [] 0
      [WinRecvEvent.ok 5 (some (-40)) ⟨none, none, [10], [], [], none, false⟩ true,
       WinRecvEvent.parseErr] [] (by decide)).1]
    decide
  · rw [(c9_scan_service_filter [11] 11
      [WinRecvEvent.ok 5 (some (-40)) ⟨none, none, [10], [], [], none, false⟩ true,
       WinRecvEvent.ok 6 none ⟨none, none, [11], [], [], none, true⟩ true] []
      (by decide)).2.1]
    decide
  · rw [(c9_scan_service_filter [] 0 [] [(CBManagerState.poweredOn,
      BridgeItem.event (CentralEvent.discovered 7
        ⟨none, none, [10], [], [], none, false⟩ (-33)))]
      (by decide)).2.2.2.2]
    decide

end Bluest
